import Mathlib

/-!
Verification development for the nearai TEE infrastructure control plane
(instance provisioner, host bridge, CVM client, guest pool manager).

The Rust sources are shallowly embedded: pure computations become Lean
functions over `Nat`/`Int`/`String`/`List`, machine integers are modelled as
`Nat` with explicit bounds where they matter, fallible code returns
`Option`/`Except`, and effectful boundaries (sockets, files, HTTP, Docker,
cryptography) are modelled by explicit oracle parameters or by explicit
state values.  All strings occurring in the verified scenarios are ASCII, so
UTF-8 byte lengths coincide with character counts and `Char.toNat` is the
byte value.
-/

deriving instance DecidableEq for Except

/-! ## Basic character and string utilities (ASCII fragment used by the code) -/

/-- ASCII decimal digit test. -/
def isAsciiDigit (c : Char) : Bool := '0' ≤ c && c ≤ '9'

/-- Value of an ASCII decimal digit. -/
def digitVal (c : Char) : Nat := c.toNat - 48

/-- Accumulating decimal parser over a digit list; fails on any non-digit. -/
def parseNatAux (acc : Nat) : List Char → Option Nat
  | [] => some acc
  | c :: cs => if isAsciiDigit c then parseNatAux (acc * 10 + digitVal c) cs else none

/-- Parse a non-empty all-digit character list as a natural number. -/
def parseNatDigits : List Char → Option Nat
  | [] => none
  | cs => parseNatAux 0 cs

/-- Strip the optional leading `+` sign Rust integer parsing accepts. -/
def dropPlus : List Char → List Char
  | '+' :: rest => rest
  | cs => cs

/-- Rust `str::parse::<uN>` on a character list: an optional leading `+`,
then one or more decimal digits, with the value bounded by `maxVal`
(out-of-range values are a parse error in Rust). -/
def parseUIntChars (maxVal : Nat) (cs : List Char) : Option Nat :=
  match parseNatDigits (dropPlus cs) with
  | none => none
  | some n => if n ≤ maxVal then some n else none

/-- Rust `str::parse::<u16>`. -/
def parseU16 (s : String) : Option Nat := parseUIntChars 65535 s.data

/-- Rust `str::parse::<u64>`. -/
def parseU64 (s : String) : Option Nat := parseUIntChars (2 ^ 64 - 1) s.data

/-- ASCII lower-casing of one character (the sources only lower-case ASCII
protocol names such as "TCP"). -/
def lowerChar (c : Char) : Char :=
  if 'A' ≤ c && c ≤ 'Z' then Char.ofNat (c.toNat + 32) else c

/-- Rust `str::to_lowercase` on the ASCII fragment. -/
def lowerStr (s : String) : String := ⟨s.data.map lowerChar⟩

/-- ASCII upper-casing of one character. -/
def upperChar (c : Char) : Char :=
  if 'a' ≤ c && c ≤ 'z' then Char.ofNat (c.toNat - 32) else c

/-- Rust `str::to_uppercase` on the ASCII fragment. -/
def upperStr (s : String) : String := ⟨s.data.map upperChar⟩

/-- ASCII whitespace, the fragment of Rust `char::is_whitespace` the
memory-string grammar can meet. -/
def isWsChar (c : Char) : Bool := c = ' ' || c = '\t' || c = '\n' || c = '\r'

/-- Rust `str::trim` on the ASCII fragment. -/
def trimStr (s : String) : String :=
  ⟨((s.data.dropWhile isWsChar).reverse.dropWhile isWsChar).reverse⟩

/-- Rust `str::trim_end_matches (c)`: drop every trailing occurrence of `c`. -/
def dropTrailing (c : Char) (cs : List Char) : List Char :=
  (cs.reverse.dropWhile (· = c)).reverse

/-! ## Instance provisioner (`host_runner/src/lib.rs`) -/

namespace Runner

/-- Function `memory_to_mb` from `host_runner/src/lib.rs` (lines 180-195): trim and
upper-case the input, then dispatch on a trailing `T`/`G`/`M` suffix,
multiplying the parsed `u64` by 1024² / 1024 / 1 MiB; a bare number is MiB.
`None` models the propagated `ParseIntError`.  (The multiplications stay far
below `u64` overflow for every input the system accepts, so plain `Nat`
arithmetic is faithful.) -/
def memory_to_mb (mem : String) : Option Nat :=
  let upper := (upperStr (trimStr mem)).data
  if upper.getLast? = some 'T' then
    (parseUIntChars (2 ^ 64 - 1) (dropTrailing 'T' upper)).map (· * 1024 * 1024)
  else if upper.getLast? = some 'G' then
    (parseUIntChars (2 ^ 64 - 1) (dropTrailing 'G' upper)).map (· * 1024)
  else if upper.getLast? = some 'M' then
    parseUIntChars (2 ^ 64 - 1) (dropTrailing 'M' upper)
  else
    parseUIntChars (2 ^ 64 - 1) upper

/-- Structure `PortMap` from `host_runner/src/lib.rs` (lines 154-162); the `u16` ports
are `Nat` values (parsing bounds them by 65535). -/
structure PortMap where
  address : String
  protocol : String
  from_port : Nat
  to_port : Nat
deriving DecidableEq, Repr

/-- The three `anyhow!` failures of `parse_port_mapping`; the spec's error
taxonomy groups all of them under the semantic kind *InvalidPortMapping*. -/
inductive PortMapError where
  | invalidFromPort
  | invalidToPort
  | invalidFormat
deriving DecidableEq, Repr

/-- Rust `str::split (':')` helper: accumulate the current field (reversed)
while scanning the character list. -/
def splitColonAux (cur : List Char) : List Char → List String
  | [] => [⟨cur.reverse⟩]
  | c :: cs =>
    if c = ':' then (⟨cur.reverse⟩ : String) :: splitColonAux [] cs
    else splitColonAux (c :: cur) cs

/-- Rust `port_str.split (':').collect::<Vec<_>>()`. -/
def splitOnColon (s : String) : List String := splitColonAux [] s.data

/-- The body of `parse_port_mapping` after the split (lines 200-238): three
fields give `(proto.to_lowercase(), "127.0.0.1", from, to)`, four fields give
`(proto.to_lowercase(), address, from, to)`, anything else is the
format error.  Port fields go through `parse::<u16>()`. -/
def parsePortFields : List String → Except PortMapError PortMap
  | [p, f, t] =>
    match parseU16 f with
    | none => .error .invalidFromPort
    | some fp =>
      match parseU16 t with
      | none => .error .invalidToPort
      | some tp => .ok ⟨"127.0.0.1", lowerStr p, fp, tp⟩
  | [p, a, f, t] =>
    match parseU16 f with
    | none => .error .invalidFromPort
    | some fp =>
      match parseU16 t with
      | none => .error .invalidToPort
      | some tp => .ok ⟨a, lowerStr p, fp, tp⟩
  | _ => .error .invalidFormat

/-- Function `parse_port_mapping` from `host_runner/src/lib.rs` (lines 198-239). -/
def parse_port_mapping (s : String) : Except PortMapError PortMap :=
  parsePortFields (splitOnColon s)

/-- Structure `VMConfig` from `host_runner/src/lib.rs` (lines 165-177). -/
structure VMConfig where
  id : String
  name : String
  vcpu : Nat
  gpu : List String
  memory : Nat
  disk_size : Nat
  image : String
  image_path : String
  port_map : List PortMap
  created_at_ms : Nat
deriving DecidableEq, Repr

/-- The failures `setup_instance` can hit while building the manifest:
memory / disk parse errors and port-mapping errors. -/
inductive SetupError where
  | invalidMemory
  | invalidDisk
  | portError (e : PortMapError)
deriving DecidableEq, Repr

/-- The port loop of `setup_instance` (lines 394-397): parse each port
string in order, aborting on the first error. -/
def parsePortList : List String → Except PortMapError (List PortMap)
  | [] => .ok []
  | p :: ps =>
    match parse_port_mapping p with
    | .error e => .error e
    | .ok pm =>
      match parsePortList ps with
      | .error e => .error e
      | .ok rest => .ok (pm :: rest)

/-- The manifest-building core of `setup_instance` from
`host_runner/src/lib.rs` (lines 391-421): `memory = memory_to_mb
(memory_str)`, `disk_size = memory_to_mb (disk_str) / 1024`, the port map is
the in-order parse of the port strings, `name` is hard-coded `"example"`,
and the remaining fields are copied from the inputs.  Directory creation and
file writes are I/O around this value and the instance id, image name and
timestamp come from the environment, so they are parameters here; the
produced `VMConfig` is exactly the value serialized to `vm-manifest.json`. -/
def setup_instance_manifest (instance_id image image_path : String) (vcpus : Nat)
    (memory_str disk_str : String) (gpus ports : List String)
    (created_at_ms : Nat) : Except SetupError VMConfig :=
  match memory_to_mb memory_str with
  | none => .error .invalidMemory
  | some memory_mb =>
    match memory_to_mb disk_str with
    | none => .error .invalidDisk
    | some disk_mb =>
      match parsePortList ports with
      | .error e => .error (.portError e)
      | .ok pms =>
        .ok { id := instance_id, name := "example", vcpu := vcpus, gpu := gpus,
              memory := memory_mb, disk_size := disk_mb / 1024,
              image := image, image_path := image_path,
              port_map := pms, created_at_ms := created_at_ms }

/-- The spec's stated VM-manifest invariants (spec §3): `memory ≥ 1`,
`disk_size ≥ 1`, all ports in `[1, 65535]`, and `port_map` entries unique on
`(protocol, address, from_port)`. -/
def manifestInvariants (c : VMConfig) : Prop :=
  1 ≤ c.memory ∧ 1 ≤ c.disk_size ∧
  (∀ pm ∈ c.port_map,
     1 ≤ pm.from_port ∧ pm.from_port ≤ 65535 ∧ 1 ≤ pm.to_port ∧ pm.to_port ≤ 65535) ∧
  (c.port_map.map fun pm => (pm.protocol, pm.address, pm.from_port)).Nodup

instance (c : VMConfig) : Decidable (manifestInvariants c) := by
  unfold manifestInvariants
  infer_instance

/-- A concrete `setup_instance` outcome: memory string "0" parses to 0 MiB,
disk string "512M" yields `512 / 1024 = 0` GiB, and the duplicated port
string "tcp:0:80" contributes two identical entries with `from_port = 0`. -/
def violatingManifest : VMConfig :=
  { id := "vm0", name := "example", vcpu := 2, gpu := [],
    memory := 0, disk_size := 0, image := "img", image_path := "/img",
    port_map := [⟨"127.0.0.1", "tcp", 0, 80⟩, ⟨"127.0.0.1", "tcp", 0, 80⟩],
    created_at_ms := 0 }

end Runner

/-! ## Host bridge (`host_api/src/lib.rs`) -/

namespace HostApi

/-- Type `serde_json::Value` as the host bridge consumes it.  Integer JSON
numbers in `u64`/`i64` range are `num`; every other number (fractions,
exponent forms, out-of-range integers) is parsed by serde as `f64` and only
matters here through `as_u64` returning `None`, so it is collapsed into
`numNonInt`. -/
inductive Json where
  | null
  | bool (b : Bool)
  | num (n : Int)
  | numNonInt
  | str (s : String)
  | arr (elems : List Json)
  | obj (fields : List (String × Json))

/-- Field lookup in an object, first match (keys are unique after parsing,
which overwrites duplicates like serde's map insert). -/
def lookupField : List (String × Json) → String → Option Json
  | [], _ => none
  | (k, v) :: rest, key => if k = key then some v else lookupField rest key

/-- Model of `serde_json::Value` square-bracket indexing: the named field of an
object, `Null` for a missing key or a non-object. -/
def Json.index (j : Json) (key : String) : Json :=
  match j with
  | .obj fields =>
    match lookupField fields key with
    | some v => v
    | none => .null
  | _ => .null

/-- Model of `serde_json::Value::as_array`. -/
def Json.asArray : Json → Option (List Json)
  | .arr xs => some xs
  | _ => none

/-- Model of `serde_json::Value::as_u64`: defined exactly for integer numbers in
`[0, 2^64)`. -/
def Json.asU64 : Json → Option Nat
  | .num n => if 0 ≤ n ∧ n < 2 ^ 64 then some n.toNat else none
  | _ => none

/-- Model of `serde_json::Value::as_str`. -/
def Json.asStr : Json → Option String
  | .str s => some s
  | _ => none

/-! ### A JSON text parser (serde_json `from_slice` on the ASCII fragment)

`get_key` parses the key provider's payload bytes with
`serde_json::from_slice`; the embedding needs an executable parser for that
step.  It follows the JSON grammar as serde accepts it: optional
whitespace, `null`/`true`/`false`, strings with the standard escapes
(surrogate pairs are out of scope for the byte-array payloads exchanged
here), numbers with the leading-zero restriction, arrays and objects, and
no trailing content.  Recursion is fuelled by the input length. -/

/-- Skip JSON whitespace. -/
def skipWs : List Char → List Char
  | c :: cs => if c = ' ' ∨ c = '\t' ∨ c = '\n' ∨ c = '\r' then skipWs cs else c :: cs
  | [] => []

/-- Hexadecimal digit value (for `\u` escapes and the hex codec). -/
def hexDigitVal (c : Char) : Option Nat :=
  if '0' ≤ c && c ≤ '9' then some (c.toNat - 48)
  else if 'a' ≤ c && c ≤ 'f' then some (c.toNat - 87)
  else if 'A' ≤ c && c ≤ 'F' then some (c.toNat - 55)
  else none

/-- Parse the remainder of a JSON string literal (opening quote already
consumed), producing the decoded string and the rest of the input. -/
def parseJStrAux (acc : List Char) : List Char → Option (String × List Char)
  | [] => none
  | '"' :: rest => some (⟨acc.reverse⟩, rest)
  | '\\' :: e :: rest =>
    if e = '"' ∨ e = '\\' ∨ e = '/' then parseJStrAux (e :: acc) rest
    else if e = 'b' then parseJStrAux (Char.ofNat 8 :: acc) rest
    else if e = 'f' then parseJStrAux (Char.ofNat 12 :: acc) rest
    else if e = 'n' then parseJStrAux ('\n' :: acc) rest
    else if e = 'r' then parseJStrAux ('\r' :: acc) rest
    else if e = 't' then parseJStrAux ('\t' :: acc) rest
    else if e = 'u' then
      match rest with
      | a :: b :: c :: d :: rest2 =>
        match hexDigitVal a, hexDigitVal b, hexDigitVal c, hexDigitVal d with
        | some ha, some hb, some hc, some hd =>
          parseJStrAux (Char.ofNat (((ha * 16 + hb) * 16 + hc) * 16 + hd) :: acc) rest2
        | _, _, _, _ => none
      | _ => none
    else none
  | c :: rest => if c.toNat < 32 then none else parseJStrAux (c :: acc) rest

/-- Greedily consume decimal digits, returning their value, their count and
the rest of the input. -/
def takeDigits (acc count : Nat) : List Char → Nat × Nat × List Char
  | c :: cs =>
    if isAsciiDigit c then takeDigits (acc * 10 + digitVal c) (count + 1) cs
    else (acc, count, c :: cs)
  | [] => (acc, count, [])

/-- Parse a JSON number: optional minus, integer part without redundant
leading zeros, optional fraction and exponent.  Integer literals within
`u64`/`i64` range become `num`; everything else is an `f64` to serde and
becomes `numNonInt`. -/
def parseNum (cs : List Char) : Option (Json × List Char) :=
  let (neg, cs1) := match cs with
    | '-' :: rest => (true, rest)
    | rest => (false, rest)
  match cs1 with
  | c :: _ =>
    if ¬ isAsciiDigit c then none
    else
      let (intVal, intLen, cs2) := takeDigits 0 0 cs1
      if c = '0' ∧ intLen ≠ 1 then none
      else
        let (hasFrac, cs3) := match cs2 with
          | '.' :: rest =>
            match rest with
            | d :: _ =>
              if isAsciiDigit d then
                let (_, _, r) := takeDigits 0 0 rest
                (some true, r)
              else (none, rest)
            | [] => (none, rest)
          | rest => (some false, rest)
        match hasFrac with
        | none => none
        | some fracPresent =>
          let (hasExp, cs4) := match cs3 with
            | 'e' :: rest | 'E' :: rest =>
              let rest2 := match rest with
                | '+' :: r => r
                | '-' :: r => r
                | r => r
              match rest2 with
              | d :: _ =>
                if isAsciiDigit d then
                  let (_, _, r) := takeDigits 0 0 rest2
                  (some true, r)
                else (none, rest2)
              | [] => (none, rest2)
            | rest => (some false, rest)
          match hasExp with
          | none => none
          | some expPresent =>
            if fracPresent ∨ expPresent then some (.numNonInt, cs4)
            else if neg then
              if intVal ≤ 2 ^ 63 then some (.num (-(intVal : Int)), cs4)
              else some (.numNonInt, cs4)
            else
              if intVal < 2 ^ 64 then some (.num (intVal : Int), cs4)
              else some (.numNonInt, cs4)
  | [] => none

/-- Parse `null` / `true` / `false` / a number. -/
def parseLit (cs : List Char) : Option (Json × List Char) :=
  match cs with
  | 'n' :: 'u' :: 'l' :: 'l' :: rest => some (.null, rest)
  | 't' :: 'r' :: 'u' :: 'e' :: rest => some (.bool true, rest)
  | 'f' :: 'a' :: 'l' :: 's' :: 'e' :: rest => some (.bool false, rest)
  | _ => parseNum cs

/-- Insert an object field, overwriting an existing key (serde's map
semantics for duplicate keys: the later value wins). -/
def insertField : List (String × Json) → String → Json → List (String × Json)
  | [], k, v => [(k, v)]
  | (k0, v0) :: rest, k, v =>
    if k0 = k then (k0, v) :: rest else (k0, v0) :: insertField rest k v

/-- The opening brace character (spelled via its code point). -/
def lbrace : Char := Char.ofNat 123

/-- The closing brace character. -/
def rbrace : Char := Char.ofNat 125

mutual

/-- Parse one JSON value. -/
def parseVal : Nat → List Char → Option (Json × List Char)
  | 0, _ => none
  | Nat.succ fuel, cs =>
    match skipWs cs with
    | [] => none
    | c :: rest =>
      if c = '"' then
        match parseJStrAux [] rest with
        | some (s, r) => some (.str s, r)
        | none => none
      else if c = '[' then
        match skipWs rest with
        | c2 :: rest2 =>
          if c2 = ']' then some (.arr [], rest2)
          else parseArrLoop fuel [] (c2 :: rest2)
        | [] => none
      else if c = lbrace then
        match skipWs rest with
        | c2 :: rest2 =>
          if c2 = rbrace then some (.obj [], rest2)
          else parseObjLoop fuel [] (c2 :: rest2)
        | [] => none
      else parseLit (c :: rest)

/-- Parse the elements of a non-empty array (after `[`). -/
def parseArrLoop : Nat → List Json → List Char → Option (Json × List Char)
  | 0, _, _ => none
  | Nat.succ fuel, acc, cs =>
    match parseVal fuel cs with
    | none => none
    | some (v, rest) =>
      match skipWs rest with
      | c :: rest2 =>
        if c = ',' then parseArrLoop fuel (v :: acc) rest2
        else if c = ']' then some (.arr (v :: acc).reverse, rest2)
        else none
      | [] => none

/-- Parse the members of a non-empty object (after the opening brace). -/
def parseObjLoop : Nat → List (String × Json) → List Char → Option (Json × List Char)
  | 0, _, _ => none
  | Nat.succ fuel, acc, cs =>
    match skipWs cs with
    | c :: rest =>
      if c = '"' then
        match parseJStrAux [] rest with
        | none => none
        | some (k, rest2) =>
          match skipWs rest2 with
          | c2 :: rest3 =>
            if c2 = ':' then
              match parseVal fuel rest3 with
              | none => none
              | some (v, rest4) =>
                match skipWs rest4 with
                | c3 :: rest5 =>
                  if c3 = ',' then parseObjLoop fuel (insertField acc k v) rest5
                  else if c3 = rbrace then some (.obj (insertField acc k v), rest5)
                  else none
                | [] => none
            else none
          | [] => none
      else none
    | [] => none

end

/-- Model of `serde_json::from_slice` seen as characters: parse one value and require
only whitespace to follow.  The fuel `cs.length + 1` dominates the number of
value/element steps, each of which consumes at least one character. -/
def parseJson (cs : List Char) : Option Json :=
  match parseVal (cs.length + 1) cs with
  | some (v, rest) => if skipWs rest = [] then some v else none
  | none => none

end HostApi

namespace HostApi

/-! ### Hex codec (the `hex` crate as used by `get_sealing_key`) -/

/-- Model of `hex::decode` on characters: pairs of hex digits, failing on an odd
length or a non-hex character. -/
def hexDecodeChars : List Char → Option (List Nat)
  | [] => some []
  | [_] => none
  | c1 :: c2 :: rest =>
    match hexDigitVal c1, hexDigitVal c2, hexDecodeChars rest with
    | some h, some l, some bs => some ((h * 16 + l) :: bs)
    | _, _, _ => none

/-- Model of `hex::decode`. -/
def hexDecode (s : String) : Option (List Nat) := hexDecodeChars s.data

/-- One lowercase hex digit. -/
def hexDigitChar (n : Nat) : Char :=
  if n < 10 then Char.ofNat (48 + n) else Char.ofNat (87 + n)

/-- Model of `hex::encode`: lowercase, two digits per byte. -/
def hexEncode (bs : List Nat) : String :=
  ⟨(bs.map fun b => [hexDigitChar (b / 16), hexDigitChar (b % 16)]).flatten⟩

/-! ### Key-provider transport (`get_key`, lines 130-212) -/

/-- Type `QuoteError` from `host_api/src/lib.rs` (lines 41-60).  `ioErr` and
`jsonErr` drop the wrapped `std::io::Error` / `serde_json::Error` payloads,
which the handler only formats into log text. -/
inductive QuoteError where
  | ioErr
  | jsonErr
  | connectionClosed
  | requestTooLarge
  | notFound
  | dataErr (msg : String)
deriving DecidableEq, Repr

/-- Structure `QuoteResponse` from `host_api/src/lib.rs` (lines 84-88). -/
structure QuoteResponse where
  encrypted_key : List Nat
  provider_quote : List Nat
deriving DecidableEq, Repr

/-- The per-element byte extraction of `QuoteResponse::from_json`
(lines 96 and 103): `v.as_u64().unwrap_or(0) as u8`, where the Rust `as u8`
cast truncates modulo 256. -/
def decodeByte (v : Json) : Nat := (v.asU64.getD 0) % 256

/-- Function `QuoteResponse::from_json` from `host_api/src/lib.rs` (lines 90-111):
require `encrypted_key` and `provider_quote` to index to arrays (else the
*Data* error with the source's message) and map each element through
`decodeByte`. -/
def QuoteResponse.from_json (data : Json) : Except QuoteError QuoteResponse :=
  match (data.index "encrypted_key").asArray with
  | none => .error (.dataErr "encrypted_key not an array")
  | some ek =>
    match (data.index "provider_quote").asArray with
    | none => .error (.dataErr "provider_quote not an array")
    | some pq => .ok ⟨ek.map decodeByte, pq.map decodeByte⟩

/-- Decimal digits of a natural number (fuel-driven, most significant
first). -/
def natToDigits (fuel n : Nat) : List Char :=
  match fuel with
  | 0 => []
  | f + 1 =>
    if n < 10 then [Char.ofNat (48 + n)]
    else natToDigits f (n / 10) ++ [Char.ofNat (48 + n % 10)]

/-- Render a natural number in decimal. -/
def natStr (n : Nat) : String := ⟨natToDigits (n + 1) n⟩

/-- Join strings with commas. -/
def commaJoin : List String → String
  | [] => ""
  | [s] => s
  | s :: rest => s ++ "," ++ commaJoin rest

/-- Model of `serde_json::to_vec` applied to the `quote` object from `get_key`
(lines 140-144) seen as text: serde's compact rendering of a one-field
object holding a byte array, `{"quote":[b0,b1,...]}`. -/
def renderQuoteRequest (quote : List Nat) : String :=
  "\x7b\"quote\":[" ++ commaJoin (quote.map natStr) ++ "]\x7d"

/-- ASCII text to bytes. -/
def strToBytes (s : String) : List Nat := s.data.map Char.toNat

/-- Bytes to ASCII text. -/
def bytesToChars (bs : List Nat) : List Char := bs.map Char.ofNat

/-- Big-endian `u32` encoding (`u32::to_be_bytes`). -/
def u32be (n : Nat) : List Nat :=
  [n / 2 ^ 24 % 256, n / 2 ^ 16 % 256, n / 2 ^ 8 % 256, n % 256]

/-- Big-endian value of a byte list (`u32::from_be_bytes` on 4 bytes). -/
def beVal (bs : List Nat) : Nat := bs.foldl (fun acc b => acc * 256 + b) 0

/-- What a read on the key-provider socket yields once the provider's bytes
are exhausted: a clean end of stream (`read` returns `Ok(0)`) or a transport
failure (`read` returns `Err`). -/
inductive StreamEnd where
  | eof
  | readErr
deriving DecidableEq, Repr

/-- One key-provider connection as `get_key` observes it: whether the
`write_all` calls fail, the response bytes the provider sends, and how the
stream behaves after those bytes.  (`TcpStream::connect` failures behave
exactly like `writeFail` — both are the *Io* error before any read.) -/
structure Conn where
  writeFail : Bool
  respData : List Nat
  ending : StreamEnd

/-- The bytes `get_key` writes on the key-provider socket (lines 140-157):
the 4-byte big-endian length (`serialized.len() as u32` truncates modulo
`2^32`) followed by the serialized `{"quote": quote}` payload. -/
def framedRequestBytes (quote : List Nat) : List Nat :=
  u32be ((strToBytes (renderQuoteRequest quote)).length % 2 ^ 32) ++
    strToBytes (renderQuoteRequest quote)

/-- The response side of `get_key` (lines 149-211), given the connection the
provider produced.  In order: a failed `write_all` ⇒ *Io* (before any read);
`read_exact` of the 4 length bytes (failure, including a short stream, ⇒
*Io*); reading exactly `respLen` payload bytes in chunks of at most 4096 (a
clean close with bytes outstanding ⇒ *ConnectionClosed*, a read failure ⇒
*Io*; surplus bytes are simply left unread); `serde_json::from_slice`
(failure ⇒ *Json*); then `QuoteResponse::from_json`. -/
def readKeyResponse (conn : Conn) : Except QuoteError QuoteResponse :=
  if conn.writeFail then .error .ioErr
  else if conn.respData.length < 4 then .error .ioErr
  else
    if (conn.respData.drop 4).length < beVal (conn.respData.take 4) then
      match conn.ending with
      | .eof => .error .connectionClosed
      | .readErr => .error .ioErr
    else
      match parseJson (bytesToChars ((conn.respData.drop 4).take
          (beVal (conn.respData.take 4)))) with
      | none => .error .jsonErr
      | some j => QuoteResponse.from_json j

/-- Function `get_key` from `host_api/src/lib.rs` (lines 130-212).  The provider is a
function from the framed request bytes written on the socket to the
connection's response behaviour; the handler opens one fresh connection,
writes one framed request, and decodes one framed response. -/
def get_key (quote : List Nat) (provider : List Nat → Conn) :
    Except QuoteError QuoteResponse :=
  readKeyResponse (provider (framedRequestBytes quote))

/-! ### HTTP handlers (`get_sealing_key`, `notify`) -/

/-- Structure `KeyResponse` from `host_api/src/lib.rs` (lines 124-128). -/
structure KeyResponse where
  encrypted_key : String
  provider_quote : String
deriving DecidableEq, Repr

/-- Handler `get_sealing_key` from `host_api/src/lib.rs` (lines 215-272), starting
from the deserialized `QuoteRequest` (the serde parse of the HTTP body is
the layer above): hex-decode the quote (failure ⇒ the *Data* error with the
source's message), call `get_key` against the configured provider, and
hex-encode both response arrays.  `Ok` models the 200 response. -/
def get_sealing_key (quote : String) (provider : List Nat → Conn) :
    Except QuoteError KeyResponse :=
  match hexDecode quote with
  | none => .error (.dataErr "Invalid hex in quote")
  | some bytes =>
    match get_key bytes provider with
    | .error e => .error e
    | .ok resp => .ok ⟨hexEncode resp.encrypted_key, hexEncode resp.provider_quote⟩

/-- Structure `NotifyRequest` from `host_api/src/lib.rs` (lines 118-122). -/
structure NotifyRequest where
  event : String
  payload : String

/-- Handler `notify` from `host_api/src/lib.rs` (lines 275-328), starting from the
deserialized `NotifyRequest`.  The filesystem is a map from paths to file
contents; `File::create` + `write_all` becomes a point update (truncating
whatever was there), modelled on the always-writable filesystem.  Every
request returns `Ok` (the JSON `null` body); events other than
`"instance.info"` touch nothing. -/
def notify (vm_dir : String) (req : NotifyRequest)
    (fs : String → Option String) : (String → Option String) × Except QuoteError Unit :=
  if req.event = "instance.info" then
    let info_path := vm_dir ++ "/shared/.instance_info"
    (fun p => if p = info_path then some req.payload else fs p, .ok ())
  else (fs, .ok ())

/-! ### Test fixtures for the sealing-key scenario -/

/-- The wire text the S1 mock provider must receive, spelled out:
`{"quote":[1,2,3,4]}` behind its 19-byte big-endian length. -/
def mockExpectedRequest : List Nat := u32be 19 ++ strToBytes "\x7b\"quote\":[1,2,3,4]\x7d"

/-- The S1 mock provider's framed reply:
`{"encrypted_key":[5,6,7,8],"provider_quote":[9,10,11,12]}`. -/
def mockResponseBytes : List Nat :=
  let t := strToBytes "\x7b\"encrypted_key\":[5,6,7,8],\"provider_quote\":[9,10,11,12]\x7d"
  u32be t.length ++ t

/-- The S1 mock key provider: expects exactly the framed request for
`quote = [1,2,3,4]` and replies with the canned frame; any other request
gets an empty, closed stream. -/
def mockProvider (req : List Nat) : Conn :=
  if req = mockExpectedRequest then ⟨false, mockResponseBytes, .eof⟩
  else ⟨false, [], .eof⟩

end HostApi

/-! ## CVM client (`cvm_client/src/lib.rs`) -/

namespace Cvm

/-- The mutable attestation state of a `CvmClient` (line 84): the sticky
`is_attested` bit.  The URL, headers, certificate path and HTTP client are
immutable after construction and play no role in the control flow modelled
here. -/
structure ClientState where
  is_attested : Bool
deriving DecidableEq, Repr

/-- The remote world a client talks to: whether the HTTP request to a given
path succeeds (including the response-body parse), whether
`get_certificate_hash` (a local openssl shell-out) succeeds, and whether
`verify_quote_and_report_data` (collateral fetch + DCAP verification +
report-data comparison) succeeds.  The model is deterministic per client, as
the claims quantify over a fixed environment. -/
structure Env where
  httpOk : String → Bool
  certHashOk : Bool
  verifyOk : Bool

/-- The observable outcome of a client call: the state afterwards, the
paths of the network requests issued to the CVM and to the PCCS (in order;
`"pccs"` stands for the collateral fetch inside quote verification), and
whether the call returned `Ok`. -/
structure CallResult where
  state : ClientState
  calls : List String
  ok : Bool
deriving DecidableEq, Repr

/-- The non-attestation tail of `make_request` (lines 167-212): one HTTP
request to the given path.  `get_quote` is exactly this with path `"quote"`,
since `make_request` skips the attestation preamble for `"quote"`. -/
def http_request (env : Env) (path : String) (s : ClientState) : CallResult :=
  ⟨s, [path], env.httpOk path⟩

/-- Method `CvmClient::attest` from `cvm_client/src/lib.rs` (lines 216-236): if
already attested, just `get_quote`; otherwise `get_quote`, then
`get_certificate_hash`, then `verify_quote_and_report_data` (which performs
the PCCS collateral fetch), and only on full success set `is_attested`. -/
def attest (env : Env) (s : ClientState) : CallResult :=
  if s.is_attested then http_request env "quote" s
  else
    let q := http_request env "quote" s
    if q.ok = false then ⟨q.state, q.calls, false⟩
    else if env.certHashOk = false then ⟨q.state, q.calls, false⟩
    else if env.verifyOk = false then ⟨q.state, q.calls ++ ["pccs"], false⟩
    else ⟨⟨true⟩, q.calls ++ ["pccs"], true⟩

/-- Method `CvmClient::make_request` from `cvm_client/src/lib.rs` (lines 153-213):
when not yet attested and the path is not `"quote"`, run `attest` first and
propagate its failure; then issue the single HTTP request. -/
def make_request (env : Env) (path : String) (s : ClientState) : CallResult :=
  if s.is_attested = false ∧ path ≠ "quote" then
    let a := attest env s
    if a.ok = false then a
    else
      let r := http_request env path a.state
      ⟨r.state, a.calls ++ r.calls, r.ok⟩
  else http_request env path s

/-- Method `CvmClient::assign` (lines 323-328): `make_request` on `"assign"`. -/
def assign (env : Env) (s : ClientState) : CallResult := make_request env "assign" s

/-- Method `CvmClient::run` (lines 331-336): `make_request` on `"run"`. -/
def runRpc (env : Env) (s : ClientState) : CallResult := make_request env "run" s

/-- Method `CvmClient::is_assigned` (lines 339-345): `make_request` on
`"is_assigned"`. -/
def is_assigned (env : Env) (s : ClientState) : CallResult :=
  make_request env "is_assigned" s

end Cvm

/-! ## Tenant gateway signed-envelope verifier (`near_auth/src/lib.rs`) -/

namespace NearAuth

/-- Structure `AuthData` from `near_auth/src/lib.rs` (lines 87-97). -/
structure AuthData where
  account_id : String
  public_key : String
  signature : String
  message : String
  nonce : String
  recipient : String
  callback_url : Option String
  on_behalf_of : Option String

/-- Function `verify_signed_message` from `near_auth/src/lib.rs` (lines 313-359).
The three sub-checks are effectful (`validate_nonce` reads the system
clock, `validate_signature` runs ed25519 verification, and
`verify_access_key_owner` queries the FastNEAR HTTP API), so their outcomes
enter as parameters; the source computes all three, logs them, and then
returns `true` unconditionally (lines 352-358, "Bypassing signature
verification for development"). -/
def verify_signed_message (auth : AuthData) (nonce_ok : Bool)
    (signature_valid : Bool) (key_belongs_to_account : Bool) : Bool :=
  true

end NearAuth

/-! ## Guest pool manager (`guest_manager/src/lib.rs`) -/

namespace Gm

/-- The remote world of `Manager::get_cvm` / `fill_cvm_pool`: whether
`CvmClient::new` succeeds for the client pointed at a given port, whether
its `attest()` succeeds, and the outcome of the `k`-th
`add_cvm_to_pool` call (a Docker create/start/inspect sequence that yields
a fresh host port or an error). -/
structure Env where
  newOk : Nat → Bool
  attOk : Nat → Bool
  addResult : Nat → Except Unit Nat

/-- One probe of the `get_cvm` loop body (lines 88-122): the candidate is
usable when client construction and attestation both succeed; on any
failure the loop logs and continues. -/
def candidateOk (env : Env) (port : Nat) : Bool :=
  env.newOk port && env.attOk port

/-- The scan of `free_cvm_ports` in `get_cvm` (lines 88-122): the first
index/port whose probe succeeds. -/
def scanFree (env : Env) : List Nat → Nat → Option (Nat × Nat)
  | [], _ => none
  | p :: rest, i =>
    if candidateOk env p then some (i, p) else scanFree env rest (i + 1)

/-- The `fill_cvm_pool` loop (lines 137-143): while the free queue is below
capacity, run `add_cvm_to_pool` (the `k`-th call consumes `env.addResult k`)
and push the new port at the back; any error aborts the loop.  Each
iteration grows the queue by one, so `capacity - free.length` bounds the
iteration count and serves as structural fuel. -/
def fillLoop (env : Env) (capacity : Nat) :
    Nat → List Nat → Nat → Except Unit (List Nat × Nat)
  | 0, free, k => .ok (free, k)
  | fuel + 1, free, k =>
    if free.length < capacity then
      match env.addResult k with
      | .error e => .error e
      | .ok p => fillLoop env capacity fuel (free ++ [p]) (k + 1)
    else .ok (free, k)

/-- Method `Manager::fill_cvm_pool` (lines 137-143). -/
def fill_cvm_pool (env : Env) (capacity : Nat) (free : List Nat) (k : Nat) :
    Except Unit (List Nat × Nat) :=
  fillLoop env capacity (capacity - free.length) free k

/-- How `get_cvm` can fail: no probe succeeded (`anyhow!("No free CVM ports
available")`, the spec's *NoFreeCvm*), or the post-removal `fill_cvm_pool`
call propagated an error. -/
inductive GetCvmError where
  | noFreeCvm
  | fillFailed
deriving DecidableEq, Repr

/-- Method `Manager::get_cvm` from `guest_manager/src/lib.rs` (lines 83-135): scan
the free queue in order for the first port whose client constructs and
attests; if none, fail with *NoFreeCvm*; otherwise remove that index from
the queue (`VecDeque::remove`), replenish with `fill_cvm_pool` (whose error
propagates), and return the port together with the new queue and add
counter. -/
def get_cvm (env : Env) (capacity : Nat) (free : List Nat) (k : Nat) :
    Except GetCvmError (Nat × List Nat × Nat) :=
  match scanFree env free 0 with
  | none => .error .noFreeCvm
  | some (i, p) =>
    match fill_cvm_pool env capacity (free.eraseIdx i) k with
    | .error _ => .error .fillFailed
    | .ok (free2, k2) => .ok (p, free2, k2)

end Gm

/-! ## Helper lemmas -/

/-- A successful bounded-integer parse respects its bound. -/
theorem parseUIntChars_le {maxVal : Nat} {cs : List Char} {n : Nat}
    (h : parseUIntChars maxVal cs = some n) : n ≤ maxVal := by
  unfold parseUIntChars at h
  rcases hpd : parseNatDigits (dropPlus cs) with _ | m
  · simp [hpd] at h
  · simp [hpd] at h
    by_cases hm : m ≤ maxVal
    · simp [hm] at h
      omega
    · simp [hm] at h

/-- A successful `parse::<u16>` is at most 65535. -/
theorem parseU16_le {s : String} {n : Nat} (h : parseU16 s = some n) : n ≤ 65535 :=
  parseUIntChars_le h

/-- Every port map produced by `parsePortFields` has 16-bit ports. -/
theorem parsePortFields_bounds : ∀ (fs : List String) (pm : Runner.PortMap),
    Runner.parsePortFields fs = .ok pm → pm.from_port ≤ 65535 ∧ pm.to_port ≤ 65535 := by
  intro fs pm h
  rcases fs with _ | ⟨p, _ | ⟨f, _ | ⟨t, _ | ⟨x, _ | ⟨y, rest⟩⟩⟩⟩⟩
  · exact absurd h (by simp [Runner.parsePortFields])
  · exact absurd h (by simp [Runner.parsePortFields])
  · exact absurd h (by simp [Runner.parsePortFields])
  · rcases hf : parseU16 f with _ | nf
    · simp [Runner.parsePortFields, hf] at h
    · rcases ht : parseU16 t with _ | nt
      · simp [Runner.parsePortFields, hf, ht] at h
      · simp [Runner.parsePortFields, hf, ht] at h
        cases h
        exact ⟨parseU16_le hf, parseU16_le ht⟩
  · rcases hf : parseU16 t with _ | nf
    · simp [Runner.parsePortFields, hf] at h
    · rcases ht : parseU16 x with _ | nt
      · simp [Runner.parsePortFields, hf, ht] at h
      · simp [Runner.parsePortFields, hf, ht] at h
        cases h
        exact ⟨parseU16_le hf, parseU16_le ht⟩
  · exact absurd h (by simp [Runner.parsePortFields])

/-- Every port map in a successful `parsePortList` run has 16-bit ports. -/
theorem parsePortList_bounds : ∀ (ports : List String) (pms : List Runner.PortMap),
    Runner.parsePortList ports = .ok pms →
    ∀ pm ∈ pms, pm.from_port ≤ 65535 ∧ pm.to_port ≤ 65535 := by
  intro ports
  induction ports with
  | nil =>
    intro pms h pm hpm
    simp [Runner.parsePortList] at h
    subst h
    simp at hpm
  | cons p ps ih =>
    intro pms h pm hpm
    rcases h1 : Runner.parse_port_mapping p with e | pm1
    · simp [Runner.parsePortList, h1] at h
    · rcases h2 : Runner.parsePortList ps with e | rest
      · simp [Runner.parsePortList, h1, h2] at h
      · simp [Runner.parsePortList, h1, h2] at h
        subst h
        rcases List.mem_cons.mp hpm with rfl | hmem
        · exact parsePortFields_bounds _ _ h1
        · exact ih rest h2 pm hmem

/-- Lemma: `splitColonAux` on colon-free input yields one field. -/
theorem splitColonAux_no_colon : ∀ (cs cur : List Char), ':' ∉ cs →
    Runner.splitColonAux cur cs = [⟨cur.reverse ++ cs⟩] := by
  intro cs
  induction cs with
  | nil => intro cur h; simp [Runner.splitColonAux]
  | cons c cs ih =>
    intro cur h
    have hc : ¬ c = ':' := fun e => h (e ▸ List.mem_cons_self c cs)
    have hcs : ':' ∉ cs := fun m => h (List.mem_cons_of_mem c m)
    simp only [Runner.splitColonAux, if_neg hc]
    rw [ih (c :: cur) hcs]
    simp

/-- Lemma: `splitColonAux` splits at the first colon after a colon-free prefix. -/
theorem splitColonAux_split : ∀ (cs cur rest : List Char), ':' ∉ cs →
    Runner.splitColonAux cur (cs ++ ':' :: rest) =
      (⟨cur.reverse ++ cs⟩ : String) :: Runner.splitColonAux [] rest := by
  intro cs
  induction cs with
  | nil => intro cur rest h; simp [Runner.splitColonAux]
  | cons c cs ih =>
    intro cur rest h
    have hc : ¬ c = ':' := fun e => h (e ▸ List.mem_cons_self c cs)
    have hcs : ':' ∉ cs := fun m => h (List.mem_cons_of_mem c m)
    show Runner.splitColonAux cur (c :: (cs ++ ':' :: rest)) = _
    simp only [Runner.splitColonAux, if_neg hc]
    rw [ih (c :: cur) rest hcs]
    simp

/-- Splitting `a ++ ":" ++ b ++ ":" ++ c` recovers the three fields. -/
theorem splitOnColon_three (a b c : String) (ha : ':' ∉ a.data) (hb : ':' ∉ b.data)
    (hc : ':' ∉ c.data) : Runner.splitOnColon (a ++ ":" ++ b ++ ":" ++ c) = [a, b, c] := by
  unfold Runner.splitOnColon
  have : (a ++ ":" ++ b ++ ":" ++ c).data = a.data ++ ':' :: (b.data ++ ':' :: c.data) := by
    simp [String.data_append]
  rw [this, splitColonAux_split _ _ _ ha, splitColonAux_split _ _ _ hb,
    splitColonAux_no_colon _ _ hc]
  cases a; cases b; cases c; simp

/-- Splitting `a ++ ":" ++ x ++ ":" ++ b ++ ":" ++ c` recovers four fields. -/
theorem splitOnColon_four (a x b c : String) (ha : ':' ∉ a.data) (hx : ':' ∉ x.data)
    (hb : ':' ∉ b.data) (hc : ':' ∉ c.data) :
    Runner.splitOnColon (a ++ ":" ++ x ++ ":" ++ b ++ ":" ++ c) = [a, x, b, c] := by
  unfold Runner.splitOnColon
  have : (a ++ ":" ++ x ++ ":" ++ b ++ ":" ++ c).data =
      a.data ++ ':' :: (x.data ++ ':' :: (b.data ++ ':' :: c.data)) := by
    simp [String.data_append]
  rw [this, splitColonAux_split _ _ _ ha, splitColonAux_split _ _ _ hx,
    splitColonAux_split _ _ _ hb, splitColonAux_no_colon _ _ hc]
  cases a; cases x; cases b; cases c; simp

/-- Lemma: `scanFree` returns `none` exactly when every candidate probe fails. -/
theorem scanFree_none_iff (env : Gm.Env) : ∀ (l : List Nat) (i : Nat),
    Gm.scanFree env l i = none ↔ ∀ p ∈ l, Gm.candidateOk env p = false := by
  intro l
  induction l with
  | nil => intro i; simp [Gm.scanFree]
  | cons hd tl ih =>
    intro i
    by_cases h : Gm.candidateOk env hd = true
    · simp [Gm.scanFree, h]
    · have h0 : Gm.candidateOk env hd = false := by
        cases hcand : Gm.candidateOk env hd
        · rfl
        · exact absurd hcand h
      simp [Gm.scanFree, h0, ih]

/-- Lemma: `scanFree` finds the first succeeding candidate, at its queue index. -/
theorem scanFree_first (env : Gm.Env) : ∀ (l1 : List Nat) (p : Nat) (l2 : List Nat) (i : Nat),
    (∀ q ∈ l1, Gm.candidateOk env q = false) → Gm.candidateOk env p = true →
    Gm.scanFree env (l1 ++ p :: l2) i = some (i + l1.length, p) := by
  intro l1
  induction l1 with
  | nil => intro p l2 i h1 hp; simp [Gm.scanFree, hp]
  | cons hd tl ih =>
    intro p l2 i h1 hp
    have h0 : Gm.candidateOk env hd = false := h1 hd (List.mem_cons_self hd tl)
    show Gm.scanFree env (hd :: (tl ++ p :: l2)) i = _
    simp only [Gm.scanFree, h0]
    rw [if_neg (by simp)]
    rw [ih p l2 (i + 1) (fun q hq => h1 q (List.mem_cons_of_mem hd hq)) hp]
    congr 1
    simp
    omega

/-- Removing the element at the index of the scan hit. -/
theorem eraseIdx_at_append : ∀ (l1 : List Nat) (x : Nat) (l2 : List Nat),
    (l1 ++ x :: l2).eraseIdx l1.length = l1 ++ l2 := by
  intro l1 x l2
  induction l1 with
  | nil => simp
  | cons hd tl ih => simp [ih]

/-- C3 (counterexample): `setup_instance` succeeds on memory string `"0"`,
disk string `"512M"` and the duplicated port string `"tcp:0:80"`, writing a
manifest with `memory = 0`, `disk_size = 0`, `from_port = 0` and two
identical `(protocol, address, from_port)` keys — violating every stated
invariant of the claim. -/
theorem setup_instance_invariants_counterexample :
    Runner.setup_instance_manifest "vm0" "img" "/img" 2 "0" "512M" []
      ["tcp:0:80", "tcp:0:80"] 0 = .ok Runner.violatingManifest ∧
    ¬ Runner.manifestInvariants Runner.violatingManifest := by
  constructor
  · decide
  · decide

/-- C3 (amended): every successful `setup_instance` writes a manifest whose
`port_map` ports all lie in `[0, 65535]` (the only bound the `u16` parse
enforces); `memory ≥ 1`, `disk_size ≥ 1`, port lower bound 1 and
`(protocol, address, from_port)` uniqueness are not validated by the code. -/
theorem setup_instance_ports_bounded (instance_id image image_path : String)
    (vcpus : Nat) (memory_str disk_str : String) (gpus ports : List String)
    (created_at_ms : Nat) (cfg : Runner.VMConfig)
    (h : Runner.setup_instance_manifest instance_id image image_path vcpus
      memory_str disk_str gpus ports created_at_ms = .ok cfg) :
    ∀ pm ∈ cfg.port_map, pm.from_port ≤ 65535 ∧ pm.to_port ≤ 65535 := by
  intro pm hpm
  rcases hm : Runner.memory_to_mb memory_str with _ | mem
  · simp [Runner.setup_instance_manifest, hm] at h
  · rcases hd : Runner.memory_to_mb disk_str with _ | dk
    · simp [Runner.setup_instance_manifest, hm, hd] at h
    · rcases hp : Runner.parsePortList ports with e | pms
      · simp [Runner.setup_instance_manifest, hm, hd, hp] at h
      · simp [Runner.setup_instance_manifest, hm, hd, hp] at h
        subst h
        exact parsePortList_bounds ports pms hp pm hpm

/-- Witness for C3's amended theorem at the S4 inputs. -/
theorem setup_instance_ports_bounded_witness :
    (⟨"127.0.0.1", "tcp", 8080, 80⟩ : Runner.PortMap).from_port ≤ 65535 ∧
    (⟨"127.0.0.1", "tcp", 8080, 80⟩ : Runner.PortMap).to_port ≤ 65535 :=
  setup_instance_ports_bounded "vm1" "img" "/img" 2 "1G" "10G" [] ["tcp:8080:80"] 0
    { id := "vm1", name := "example", vcpu := 2, gpu := [], memory := 1024,
      disk_size := 10, image := "img", image_path := "/img",
      port_map := [⟨"127.0.0.1", "tcp", 8080, 80⟩], created_at_ms := 0 }
    (by decide) ⟨"127.0.0.1", "tcp", 8080, 80⟩ (by decide)

/-- C8 (counterexample): the four-field input `"tcp:127.0.0.1:8080:80"` is
legal and parses with `address = "127.0.0.1"`, so "address equals 127.0.0.1
iff the input had three fields" fails in the right-to-left direction. -/
theorem parse_port_mapping_address_iff_counterexample :
    Runner.parse_port_mapping "tcp:127.0.0.1:8080:80" =
      .ok ⟨"127.0.0.1", "tcp", 8080, 80⟩ ∧
    (Runner.splitOnColon "tcp:127.0.0.1:8080:80").length = 4 := by
  constructor
  · decide
  · decide

/-- C8 (amended): for every legal port string — 3 or 4 colon-separated
fields, protocol `tcp`/`udp` up to case, 16-bit numeric ports — the parse
returns the lowercased protocol and the parsed ports, with `address =
"127.0.0.1"` when three fields are given and the explicitly given address
when four are given (which may itself be `"127.0.0.1"`); any field count
other than 3 or 4, and any non-numeric port field, fails with one of the
*InvalidPortMapping* errors. -/
theorem parse_port_mapping_contract :
    (∀ p f t nf nt, (lowerStr p = "tcp" ∨ lowerStr p = "udp") →
       parseU16 f = some nf → parseU16 t = some nt →
       Runner.parsePortFields [p, f, t] = .ok ⟨"127.0.0.1", lowerStr p, nf, nt⟩) ∧
    (∀ p a f t nf nt, (lowerStr p = "tcp" ∨ lowerStr p = "udp") →
       parseU16 f = some nf → parseU16 t = some nt →
       Runner.parsePortFields [p, a, f, t] = .ok ⟨a, lowerStr p, nf, nt⟩) ∧
    (∀ fs : List String, fs.length ≠ 3 → fs.length ≠ 4 →
       Runner.parsePortFields fs = .error .invalidFormat) ∧
    (∀ p f t, parseU16 f = none →
       Runner.parsePortFields [p, f, t] = .error .invalidFromPort) ∧
    (∀ p f t nf, parseU16 f = some nf → parseU16 t = none →
       Runner.parsePortFields [p, f, t] = .error .invalidToPort) ∧
    (∀ p a f t, parseU16 f = none →
       Runner.parsePortFields [p, a, f, t] = .error .invalidFromPort) ∧
    (∀ p a f t nf, parseU16 f = some nf → parseU16 t = none →
       Runner.parsePortFields [p, a, f, t] = .error .invalidToPort) := by
  refine ⟨?_, ?_, ?_, ?_, ?_, ?_, ?_⟩
  · intro p f t nf nt _ hf ht
    simp [Runner.parsePortFields, hf, ht]
  · intro p a f t nf nt _ hf ht
    simp [Runner.parsePortFields, hf, ht]
  · intro fs h3 h4
    rcases fs with _ | ⟨a, _ | ⟨b, _ | ⟨c, _ | ⟨d, _ | ⟨e, rest⟩⟩⟩⟩⟩
    · rfl
    · rfl
    · rfl
    · exact absurd rfl h3
    · exact absurd rfl h4
    · rfl
  · intro p f t hf
    simp [Runner.parsePortFields, hf]
  · intro p f t nf hf ht
    simp [Runner.parsePortFields, hf, ht]
  · intro p a f t hf
    simp [Runner.parsePortFields, hf]
  · intro p a f t nf hf ht
    simp [Runner.parsePortFields, hf, ht]

/-- Witness for C8's amended theorem at the test-suite inputs. -/
theorem parse_port_mapping_contract_witness :
    Runner.parsePortFields ["tcp", "8080", "80"] = .ok ⟨"127.0.0.1", lowerStr "tcp", 8080, 80⟩ ∧
    Runner.parsePortFields ["UDP", "0.0.0.0", "53", "53"] = .ok ⟨"0.0.0.0", lowerStr "UDP", 53, 53⟩ ∧
    Runner.parsePortFields ["tcp", "8080"] = .error .invalidFormat ∧
    Runner.parsePortFields ["tcp", "x", "80"] = .error .invalidFromPort :=
  ⟨parse_port_mapping_contract.1 "tcp" "8080" "80" 8080 80 (Or.inl (by decide))
      (by decide) (by decide),
   parse_port_mapping_contract.2.1 "UDP" "0.0.0.0" "53" "53" 53 53 (Or.inr (by decide))
      (by decide) (by decide),
   parse_port_mapping_contract.2.2.1 ["tcp", "8080"] (by decide) (by decide),
   parse_port_mapping_contract.2.2.2.1 "tcp" "x" "80" (by decide)⟩

/-- C10: `parse_port_mapping` does not validate the protocol: any 3- or
4-field input with numeric 16-bit ports parses successfully with the
lowercased first field as protocol, even when it is neither `"tcp"` nor
`"udp"`; in particular `"foo:1:2"` is accepted with protocol `"foo"`. -/
theorem parse_port_mapping_no_protocol_validation :
    (∀ (a b c : String) (nb nc : Nat), ':' ∉ a.data → ':' ∉ b.data → ':' ∉ c.data →
       parseU16 b = some nb → parseU16 c = some nc →
       Runner.parse_port_mapping (a ++ ":" ++ b ++ ":" ++ c) =
         .ok ⟨"127.0.0.1", lowerStr a, nb, nc⟩) ∧
    (∀ (a x b c : String) (nb nc : Nat), ':' ∉ a.data → ':' ∉ x.data → ':' ∉ b.data →
       ':' ∉ c.data → parseU16 b = some nb → parseU16 c = some nc →
       Runner.parse_port_mapping (a ++ ":" ++ x ++ ":" ++ b ++ ":" ++ c) =
         .ok ⟨x, lowerStr a, nb, nc⟩) ∧
    Runner.parse_port_mapping "foo:1:2" = .ok ⟨"127.0.0.1", "foo", 1, 2⟩ := by
  refine ⟨?_, ?_, by decide⟩
  · intro a b c nb nc ha hb hc hpb hpc
    unfold Runner.parse_port_mapping
    rw [splitOnColon_three a b c ha hb hc]
    simp [Runner.parsePortFields, hpb, hpc]
  · intro a x b c nb nc ha hx hb hc hpb hpc
    unfold Runner.parse_port_mapping
    rw [splitOnColon_four a x b c ha hx hb hc]
    simp [Runner.parsePortFields, hpb, hpc]

/-- Witness for C10 at the non-protocol input `"bar" : "1" : "2"`. -/
theorem parse_port_mapping_no_protocol_validation_witness :
    Runner.parse_port_mapping ("bar" ++ ":" ++ "1" ++ ":" ++ "2") =
      .ok ⟨"127.0.0.1", lowerStr "bar", 1, 2⟩ :=
  parse_port_mapping_no_protocol_validation.1 "bar" "1" "2" 1 2 (by decide) (by decide)
    (by decide) (by decide) (by decide)

/-- Whether a transport result is the *Data* error. -/
def isDataError : Except HostApi.QuoteError HostApi.QuoteResponse → Bool
  | .error (.dataErr _) => true
  | _ => false

/-- The malformed-JSON connection: a well-framed 7-byte payload reading
`notjson`, cleanly closed. -/
def malformedJsonConn : HostApi.Conn :=
  ⟨false, HostApi.u32be 7 ++ HostApi.strToBytes "notjson", .eof⟩

/-- C1: the `GetSealingKey` handler depends on the key provider only
through its answer to the single framed request `framedRequestBytes
(hex-decode quote)` (4-byte big-endian length + JSON `{quote: bytes}`); a
non-hex quote yields the *Data* error; and on the S1 mock provider —
which demands exactly the frame for `[1,2,3,4]` and replies
`encrypted_key=[5,6,7,8], provider_quote=[9,10,11,12]` — the quote
`"01020304"` produces `{"encrypted_key":"05060708",
"provider_quote":"090a0b0c"}`. -/
theorem get_sealing_key_contract (q : String)
    (provider provider2 : List Nat → HostApi.Conn) :
    (∀ bs, HostApi.hexDecode q = some bs →
       provider (HostApi.framedRequestBytes bs) = provider2 (HostApi.framedRequestBytes bs) →
       HostApi.get_sealing_key q provider = HostApi.get_sealing_key q provider2) ∧
    (HostApi.hexDecode q = none →
       HostApi.get_sealing_key q provider = .error (.dataErr "Invalid hex in quote")) ∧
    HostApi.get_sealing_key "01020304" HostApi.mockProvider =
      .ok ⟨"05060708", "090a0b0c"⟩ := by
  refine ⟨?_, ?_, by decide⟩
  · intro bs h1 h2
    simp [HostApi.get_sealing_key, h1, HostApi.get_key, h2]
  · intro h
    simp [HostApi.get_sealing_key, h]

/-- Witness for C1 at the S1 scenario and a non-hex quote. -/
theorem get_sealing_key_contract_witness :
    HostApi.get_sealing_key "01020304" HostApi.mockProvider =
      HostApi.get_sealing_key "01020304" HostApi.mockProvider ∧
    HostApi.get_sealing_key "zz" HostApi.mockProvider =
      .error (.dataErr "Invalid hex in quote") ∧
    HostApi.get_sealing_key "01020304" HostApi.mockProvider =
      .ok ⟨"05060708", "090a0b0c"⟩ :=
  ⟨(get_sealing_key_contract "01020304" HostApi.mockProvider HostApi.mockProvider).1
      [1, 2, 3, 4] (by decide) rfl,
   (get_sealing_key_contract "zz" HostApi.mockProvider HostApi.mockProvider).2.1 (by decide),
   (get_sealing_key_contract "01020304" HostApi.mockProvider HostApi.mockProvider).2.2⟩

/-- C5: `Notify` with event `"instance.info"` overwrites
`<vm_dir>/shared/.instance_info` with the payload verbatim (truncating any
previous content) and succeeds; every other event succeeds and leaves the
filesystem untouched. -/
theorem notify_event_dispatch (vm_dir : String) (req : HostApi.NotifyRequest)
    (fs : String → Option String) :
    (req.event = "instance.info" →
       HostApi.notify vm_dir req fs =
         (fun p => if p = vm_dir ++ "/shared/.instance_info" then some req.payload
                   else fs p, .ok ())) ∧
    (req.event ≠ "instance.info" → HostApi.notify vm_dir req fs = (fs, .ok ())) := by
  constructor
  · intro h
    simp [HostApi.notify, h]
  · intro h
    simp [HostApi.notify, h]

/-- Witness for C5 at the S2/S3 scenarios. -/
theorem notify_event_dispatch_witness :
    HostApi.notify "T" ⟨"instance.info", "hello"⟩ (fun _ => none) =
      (fun p => if p = "T" ++ "/shared/.instance_info" then some "hello" else none, .ok ()) ∧
    HostApi.notify "T" ⟨"other", "x"⟩ (fun _ => none) = (fun _ => none, .ok ()) :=
  ⟨(notify_event_dispatch "T" ⟨"instance.info", "hello"⟩ (fun _ => none)).1 rfl,
   (notify_event_dispatch "T" ⟨"other", "x"⟩ (fun _ => none)).2 (by decide)⟩

/-- C6 (counterexample): a well-framed but non-JSON payload (`notjson`)
makes `get_key` fail with the *Json* error, not the *Data* error the claim
names. -/
theorem get_key_malformed_json_counterexample :
    HostApi.get_key [1] (fun _ => malformedJsonConn) = .error .jsonErr ∧
    isDataError (HostApi.get_key [1] (fun _ => malformedJsonConn)) = false := by
  constructor
  · decide
  · decide

/-- C6 (amended): the transport decode classifies failures as: write
failure, or end of stream while reading the 4 length bytes, ⇒ *Io*; a clean
close before the full advertised payload length is read ⇒
*ConnectionClosed*; a read failure there ⇒ *Io*; a payload that is not
valid JSON ⇒ *Json* (the *Data* error is reserved for JSON of the wrong
shape). -/
theorem get_key_error_classification (quote : List Nat) (conn : HostApi.Conn) :
    (conn.writeFail = true →
       HostApi.get_key quote (fun _ => conn) = .error .ioErr) ∧
    (conn.writeFail = false → conn.respData.length < 4 →
       HostApi.get_key quote (fun _ => conn) = .error .ioErr) ∧
    (conn.writeFail = false → 4 ≤ conn.respData.length →
       (conn.respData.drop 4).length < HostApi.beVal (conn.respData.take 4) →
       conn.ending = .eof →
       HostApi.get_key quote (fun _ => conn) = .error .connectionClosed) ∧
    (conn.writeFail = false → 4 ≤ conn.respData.length →
       (conn.respData.drop 4).length < HostApi.beVal (conn.respData.take 4) →
       conn.ending = .readErr →
       HostApi.get_key quote (fun _ => conn) = .error .ioErr) ∧
    (conn.writeFail = false → 4 ≤ conn.respData.length →
       HostApi.beVal (conn.respData.take 4) ≤ (conn.respData.drop 4).length →
       HostApi.parseJson (HostApi.bytesToChars ((conn.respData.drop 4).take
         (HostApi.beVal (conn.respData.take 4)))) = none →
       HostApi.get_key quote (fun _ => conn) = .error .jsonErr) := by
  refine ⟨?_, ?_, ?_, ?_, ?_⟩
  · intro h
    simp [HostApi.get_key, HostApi.readKeyResponse, h]
  · intro h hlen
    simp [HostApi.get_key, HostApi.readKeyResponse, h, hlen]
  · intro h hlen hshort hend
    simp only [HostApi.get_key, HostApi.readKeyResponse]
    rw [if_neg (by simp [h]), if_neg (by omega), if_pos hshort, hend]
  · intro h hlen hshort hend
    simp only [HostApi.get_key, HostApi.readKeyResponse]
    rw [if_neg (by simp [h]), if_neg (by omega), if_pos hshort, hend]
  · intro h hlen hfull hparse
    simp only [HostApi.get_key, HostApi.readKeyResponse]
    rw [if_neg (by simp [h]), if_neg (by omega), if_neg (by omega), hparse]

/-- Witness for C6's amended theorem on concrete connections. -/
theorem get_key_error_classification_witness :
    HostApi.get_key [1] (fun _ => ⟨true, [], .eof⟩) = .error .ioErr ∧
    HostApi.get_key [1] (fun _ => ⟨false, HostApi.u32be 10 ++ HostApi.strToBytes "notjs", .eof⟩) =
      .error .connectionClosed ∧
    HostApi.get_key [1] (fun _ => ⟨false, HostApi.u32be 10 ++ HostApi.strToBytes "notjs", .readErr⟩) =
      .error .ioErr ∧
    HostApi.get_key [1] (fun _ => malformedJsonConn) = .error .jsonErr :=
  ⟨(get_key_error_classification [1] ⟨true, [], .eof⟩).1 rfl,
   (get_key_error_classification [1] ⟨false, HostApi.u32be 10 ++ HostApi.strToBytes "notjs", .eof⟩).2.2.1
      rfl (by decide) (by decide) rfl,
   (get_key_error_classification [1] ⟨false, HostApi.u32be 10 ++ HostApi.strToBytes "notjs", .readErr⟩).2.2.2.1
      rfl (by decide) (by decide) rfl,
   (get_key_error_classification [1] malformedJsonConn).2.2.2.2
      rfl (by decide) (by decide) rfl⟩

/-- The C7 counterexample JSON: an `encrypted_key` element of 300. -/
def overflowElementJson : HostApi.Json :=
  .obj [("encrypted_key", .arr [.num 300]), ("provider_quote", .arr [])]

/-- C7 (counterexample): the element 300 (an integer greater than 255) does
not decode to 0 — the `as u8` cast truncates it to `300 % 256 = 44`. -/
theorem from_json_truncation_counterexample :
    HostApi.QuoteResponse.from_json overflowElementJson = .ok ⟨[44], []⟩ ∧
    HostApi.QuoteResponse.from_json overflowElementJson ≠ .ok ⟨[0], []⟩ := by
  constructor
  · decide
  · decide

/-- C7 (amended): each array element decodes as `as_u64 () .unwrap_or (0) as
u8`: elements that are not unsigned 64-bit integers (non-integers,
negatives, values at or above `2^64`) decode to 0, and unsigned-integer
elements decode to their value modulo 256 — so elements in `[0, 255]`
decode to themselves, while elements in `(255, 2^64)` are truncated rather
than zeroed. -/
theorem from_json_byte_decoding (ek pq : List HostApi.Json) :
    HostApi.QuoteResponse.from_json
        (.obj [("encrypted_key", .arr ek), ("provider_quote", .arr pq)]) =
      .ok ⟨ek.map HostApi.decodeByte, pq.map HostApi.decodeByte⟩ ∧
    (∀ v, HostApi.Json.asU64 v = none → HostApi.decodeByte v = 0) ∧
    (∀ n : Nat, n < 2 ^ 64 → HostApi.decodeByte (.num n) = n % 256) ∧
    (∀ n : Nat, n ≤ 255 → HostApi.decodeByte (.num n) = n) := by
  refine ⟨?_, ?_, ?_, ?_⟩
  · simp [HostApi.QuoteResponse.from_json, HostApi.Json.index, HostApi.lookupField,
      HostApi.Json.asArray]
  · intro v h
    simp [HostApi.decodeByte, h]
  · intro n h
    have h0 : (0 : Int) ≤ (n : Int) := Int.ofNat_nonneg n
    have h1 : (n : Int) < 2 ^ 64 := by exact_mod_cast h
    simp only [HostApi.decodeByte, HostApi.Json.asU64, h0, h1, and_self, if_true,
      Int.toNat_ofNat, Option.getD_some]
  · intro n h
    have h64 : n < 2 ^ 64 := by omega
    have h0 : (0 : Int) ≤ (n : Int) := Int.ofNat_nonneg n
    have h1 : (n : Int) < 2 ^ 64 := by exact_mod_cast h64
    simp only [HostApi.decodeByte, HostApi.Json.asU64, h0, h1, and_self, if_true,
      Int.toNat_ofNat, Option.getD_some]
    omega

/-- Witness for C7's amended theorem on a mixed concrete payload. -/
theorem from_json_byte_decoding_witness :
    HostApi.QuoteResponse.from_json
        (.obj [("encrypted_key", .arr [.num 300, .num (-5)]),
               ("provider_quote", .arr [.num 9])]) =
      .ok ⟨[.num 300, .num (-5)].map HostApi.decodeByte,
           [(.num 9 : HostApi.Json)].map HostApi.decodeByte⟩ ∧
    HostApi.decodeByte (.num (-5)) = 0 ∧
    HostApi.decodeByte (.num 300) = 300 % 256 ∧
    HostApi.decodeByte (.num 9) = 9 :=
  ⟨(from_json_byte_decoding [.num 300, .num (-5)] [.num 9]).1,
   (from_json_byte_decoding [] []).2.1 (.num (-5)) (by decide),
   (from_json_byte_decoding [] []).2.2.1 300 (by norm_num),
   (from_json_byte_decoding [] []).2.2.2 9 (by norm_num)⟩

/-- C2: sticky attestation.  (1) A successful `attest` leaves the client
with `is_attested = true`.  (2) On an attested client every RPC — any path —
is a single network call with no re-attestation and no state change; in
particular (3) after a successful `attest`, each of `assign`, `run` and
`is_assigned` issues exactly the one call to its own path.  (4) Conversely,
a non-`quote` RPC on a not-yet-attested client first runs `attest`,
propagating its failure and otherwise appending the single RPC call to the
attestation's calls. -/
theorem cvm_sticky_attestation (env : Cvm.Env) (s : Cvm.ClientState) (path : String) :
    ((Cvm.attest env s).ok = true → (Cvm.attest env s).state.is_attested = true) ∧
    (s.is_attested = true →
       Cvm.make_request env path s = ⟨s, [path], env.httpOk path⟩) ∧
    ((Cvm.attest env s).ok = true →
       Cvm.assign env (Cvm.attest env s).state =
         ⟨(Cvm.attest env s).state, ["assign"], env.httpOk "assign"⟩ ∧
       Cvm.runRpc env (Cvm.attest env s).state =
         ⟨(Cvm.attest env s).state, ["run"], env.httpOk "run"⟩ ∧
       Cvm.is_assigned env (Cvm.attest env s).state =
         ⟨(Cvm.attest env s).state, ["is_assigned"], env.httpOk "is_assigned"⟩) ∧
    (s.is_attested = false → path ≠ "quote" →
       Cvm.make_request env path s =
         (if (Cvm.attest env s).ok then
            ⟨(Cvm.attest env s).state, (Cvm.attest env s).calls ++ [path],
              env.httpOk path⟩
          else Cvm.attest env s)) := by
  have attested_of_ok : (Cvm.attest env s).ok = true →
      (Cvm.attest env s).state.is_attested = true := by
    intro h
    by_cases hs : s.is_attested = true
    · simp [Cvm.attest, hs, Cvm.http_request]
    · have hs0 : s.is_attested = false := by
        cases hval : s.is_attested
        · rfl
        · exact absurd hval hs
      by_cases hq : env.httpOk "quote" = true
      · by_cases hc : env.certHashOk = true
        · by_cases hv : env.verifyOk = true
          · simp [Cvm.attest, hs0, Cvm.http_request, hq, hc, hv]
          · simp [Cvm.attest, hs0, Cvm.http_request, hq, hc, hv] at h
        · simp [Cvm.attest, hs0, Cvm.http_request, hq, hc] at h
      · simp [Cvm.attest, hs0, Cvm.http_request, hq] at h
  have attested_request : ∀ (s2 : Cvm.ClientState) (pth : String),
      s2.is_attested = true →
      Cvm.make_request env pth s2 = ⟨s2, [pth], env.httpOk pth⟩ := by
    intro s2 pth h2
    simp [Cvm.make_request, h2, Cvm.http_request]
  refine ⟨attested_of_ok, attested_request s path, ?_, ?_⟩
  · intro h
    have hst := attested_of_ok h
    exact ⟨attested_request _ "assign" hst, attested_request _ "run" hst,
      attested_request _ "is_assigned" hst⟩
  · intro h1 h2
    simp only [Cvm.make_request, h1, ne_eq, h2, not_false_iff, and_true, if_true]
    cases hok : (Cvm.attest env s).ok
    · simp [hok]
    · simp [hok, Cvm.http_request]

/-- Witness for C2: on a fully healthy environment, a fresh client attests
and then `assign` on the attested state is the single call `["assign"]`. -/
theorem cvm_sticky_attestation_witness :
    (Cvm.attest ⟨fun _ => true, true, true⟩ ⟨false⟩).state.is_attested = true ∧
    Cvm.make_request ⟨fun _ => true, true, true⟩ "assign" ⟨true⟩ =
      ⟨⟨true⟩, ["assign"], (⟨fun _ => true, true, true⟩ : Cvm.Env).httpOk "assign"⟩ :=
  ⟨(cvm_sticky_attestation ⟨fun _ => true, true, true⟩ ⟨false⟩ "assign").1 rfl,
   (cvm_sticky_attestation ⟨fun _ => true, true, true⟩ ⟨true⟩ "assign").2.1 rfl⟩

/-- C4: the Tenant Gateway's signed-envelope verifier is stubbed:
`verify_signed_message` returns `true` for every `AuthData` and for every
combination of outcomes of the nonce, signature and key-ownership
sub-checks. -/
theorem verify_signed_message_always_true (auth : NearAuth.AuthData)
    (nonce_ok signature_valid key_belongs_to_account : Bool) :
    NearAuth.verify_signed_message auth nonce_ok signature_valid
      key_belongs_to_account = true := rfl

/-- C9: `get_cvm` (1) fails with *NoFreeCvm* exactly when no candidate in
the free queue passes client construction + attestation (per-candidate
failures are skipped), and (2) when the first success is the port `p` after
a failing prefix, and the refill of the queue-without-`p` succeeds, it
returns `p` together with the refilled queue — removal precedes the refill
and the return. -/
theorem get_cvm_scan_contract (env : Gm.Env) (capacity k : Nat) (free : List Nat) :
    (Gm.get_cvm env capacity free k = .error .noFreeCvm ↔
       ∀ p ∈ free, Gm.candidateOk env p = false) ∧
    (∀ (free1 : List Nat) (p : Nat) (free2 free' : List Nat) (k2 : Nat),
       free = free1 ++ p :: free2 →
       (∀ q ∈ free1, Gm.candidateOk env q = false) →
       Gm.candidateOk env p = true →
       Gm.fill_cvm_pool env capacity (free1 ++ free2) k = .ok (free', k2) →
       Gm.get_cvm env capacity free k = .ok (p, free', k2)) := by
  constructor
  · rcases hscan : Gm.scanFree env free 0 with _ | ⟨i, p⟩
    · simp only [Gm.get_cvm, hscan]
      exact ⟨fun _ => (scanFree_none_iff env free 0).mp hscan,
             fun _ => trivial⟩
    · constructor
      · intro h
        rcases hfill : Gm.fill_cvm_pool env capacity (free.eraseIdx i) k with e | ⟨f2, k2⟩
        · simp [Gm.get_cvm, hscan, hfill] at h
        · simp [Gm.get_cvm, hscan, hfill] at h
      · intro hall
        have : Gm.scanFree env free 0 = none := (scanFree_none_iff env free 0).mpr hall
        rw [this] at hscan
        cases hscan
  · intro free1 p free2 free' k2 hfree hfail hp hfill
    subst hfree
    have hscan := scanFree_first env free1 p free2 0 hfail hp
    rw [Nat.zero_add] at hscan
    have herase := eraseIdx_at_append free1 p free2
    simp only [Gm.get_cvm, hscan, herase, hfill]

/-- Witness for C9: queue `[5, 7]` where only port 7 attests, capacity 2,
one successful container add (port 9): `get_cvm` returns 7 with the
refilled queue `[5, 9]`. -/
theorem get_cvm_scan_contract_witness :
    Gm.get_cvm ⟨fun _ => true, fun p => p == 7, fun _ => .ok 9⟩ 2 [5, 7] 0 =
      .ok (7, [5, 9], 1) :=
  (get_cvm_scan_contract ⟨fun _ => true, fun p => p == 7, fun _ => .ok 9⟩ 2 0 [5, 7]).2
    [5] 7 [] [5, 9] 1 rfl (by decide) (by decide) rfl
